import Mathlib

/-!
Shallow embedding of the directus-data-model collection compiler
(src/src/collection.ts).  The `Collection` class accumulates field
descriptors and collection metadata through fluent calls and renders a
canonical descriptor tree.  The `Field` class and the `Builder` registry
live outside the repository sources; their contract is modelled from the
specification (sections 3, 4.2 and 6 of spec.md) and each such definition
is marked in its doc comment.
-/

namespace Directus

/-- Accountability mode of a collection: the TS type is
`"all" | "activity" | null`; the two string alternatives are this
inductive, and `null` is `Option.none` at use sites. -/
inductive Accountability
  | all
  | activity
  deriving DecidableEq, Repr

/-- `CollectionSchema` is the empty object type `{}` in the source. -/
structure CollectionSchema where
  deriving DecidableEq, Repr

/-- One entry of `meta.translations`: `language` and `translation` are
required, `singular` and `plural` stay undefined unless supplied. -/
structure Translation where
  language : String
  translation : String
  singular : Option String := none
  plural : Option String := none
  deriving DecidableEq, Repr

/-- Collection-level metadata.  Every key of the TS `CollectionMeta` is
optional, so each component is wrapped in `Option`, with `none` meaning
the key is absent.  `archive_value` and `unarchive_value` are
`string | null` when present, hence the nested `Option`: `none` is
unset, `some none` is an explicit null, `some (some s)` is a string. -/
structure CollectionMeta where
  sort_field : Option String := none
  archive_field : Option String := none
  archive_value : Option (Option String) := none
  unarchive_value : Option (Option String) := none
  archive_app_filter : Option Bool := none
  accountability : Option (Option Accountability) := none
  hidden : Option Bool := none
  singleton : Option Bool := none
  translations : Option (List Translation) := none
  deriving DecidableEq, Repr

/-- Modelled from the spec: storage constraints of a field descriptor
(spec section 3: max_length, numeric_precision, numeric_scale, nullable,
primary-key flag, autoincrement flag); the concrete `FieldSchema` type
of field.ts is not part of the repository sources.  Keys are optional. -/
structure FieldSchema where
  max_length : Option Nat := none
  numeric_precision : Option Nat := none
  numeric_scale : Option Nat := none
  nullable : Option Bool := none
  primary_key : Option Bool := none
  autoincrement : Option Bool := none
  deriving DecidableEq, Repr

/-- A value inside an interface or display options object, such as
`\x7b template \x7d` or `\x7b relative: true \x7d`. -/
inductive OptVal
  | str (s : String)
  | bool (b : Bool)
  deriving DecidableEq, Repr

/-- Modelled from the spec: presentation metadata of a field descriptor
(spec section 3: interface name + options, display name + options, and
the ordered sequence of special tags); field.ts is not part of the
repository sources.  Options objects are modelled as association
lists. -/
structure FieldMeta where
  interface : Option String := none
  options : Option (List (String × OptVal)) := none
  display : Option String := none
  display_options : Option (List (String × OptVal)) := none
  special : Option (List String) := none
  deriving DecidableEq, Repr

/-- Modelled from the spec: a field descriptor (spec section 3), with
the back-reference to the owning collection stored as the collection
name (spec section 9: implement the back-reference as a stored
identifier, not a mutable reference). -/
structure Field where
  collection : String
  name : String
  type : String
  schema : FieldSchema := {}
  meta : FieldMeta := {}
  deriving DecidableEq, Repr

/-- A registered relation: a directed edge from a collection field to a
related collection with an `on_delete` policy (spec sections 3 and 6).
Owned by the registry; the relation log models the `Builder`. -/
structure Relation where
  collection : String
  field : String
  related_collection : Option String
  on_delete : Option String := none
  deriving DecidableEq, Repr

/-- Modelled from the spec: the `Field` constructor of field.ts; like
the `Collection` constructor it stores name and type and defaults the
omitted schema and meta to empty objects. -/
def Field.mkF (collection name type : String) (schema : Option FieldSchema)
    (meta : Option FieldMeta) : Field :=
  { collection := collection, name := name, type := type,
    schema := schema.getD {}, meta := meta.getD {} }

/-- Modelled from the spec: `special(...kinds)` appends to the ordered
special-tag sequence, initializing it on first use (spec sections 3 and
4.2: an append that keeps declaration order). -/
def Field.special (f : Field) (kinds : List String) : Field :=
  { f with meta := { f.meta with special := some (f.meta.special.getD [] ++ kinds) } }

/-- Modelled from the spec: `notNullable()` clears the nullable flag of
the field schema (spec section 8: `schema.nullable=false`). -/
def Field.notNullable (f : Field) : Field :=
  { f with schema := { f.schema with nullable := some false } }

/-- Modelled from the spec: `pk()` sets the primary-key flag
(spec section 8: `schema.primary_key=true`). -/
def Field.pk (f : Field) : Field :=
  { f with schema := { f.schema with primary_key := some true } }

/-- Modelled from the spec: `autoincrement()` sets the autoincrement
flag (spec section 8: `schema.autoincrement=true`). -/
def Field.autoincrement (f : Field) : Field :=
  { f with schema := { f.schema with autoincrement := some true } }

/-- Modelled from the spec: `interface(name, options?)` records the
input widget name and its options (spec sections 4.2 and glossary). -/
def Field.setInterface (f : Field) (name : String)
    (options : Option (List (String × OptVal))) : Field :=
  { f with meta := { f.meta with interface := some name, options := options } }

/-- Modelled from the spec: `display(name, options?)` records the
read-view renderer name and its options (spec sections 4.2 and
glossary). -/
def Field.setDisplay (f : Field) (name : String)
    (options : Option (List (String × OptVal))) : Field :=
  { f with meta := { f.meta with display := some name, display_options := options } }

/-- The rendered form of a field: `render()` yields
`\x7bfield: name, type, schema, meta\x7d` (spec section 4.2). -/
structure RenderedField where
  field : String
  type : String
  schema : FieldSchema
  meta : FieldMeta
  deriving DecidableEq, Repr

/-- Modelled from the spec: `Field.render()` yields
`\x7bfield: name, type, schema, meta\x7d` (spec section 4.2); the
collection back-reference does not appear in the output. -/
def Field.render (f : Field) : RenderedField :=
  { field := f.name, type := f.type, schema := f.schema, meta := f.meta }

/-- The observable sequence of special tags of a field: the tag list
when present, the empty sequence when the key is absent. -/
def Field.specialTags (f : Field) : List String :=
  f.meta.special.getD []

/-- The state of a `Collection` instance together with the relation log
of its `Builder` (the registry adapter is modelled, per spec sections 2
and 6, as an append-only log of registered relations). -/
structure Collection where
  builder : List Relation
  name : String
  schema : CollectionSchema
  meta : CollectionMeta
  fields : List Field
  deriving DecidableEq, Repr

/-- The `Collection` constructor: omitted schema, meta and fields
default to `\x7b\x7d`, `\x7b\x7d` and `[]` respectively
(collection.ts lines 52-58). -/
def Collection.mkC (builder : List Relation) (name : String)
    (schema : Option CollectionSchema) (meta : Option CollectionMeta)
    (fields : Option (List Field)) : Collection :=
  { builder := builder, name := name, schema := schema.getD {},
    meta := meta.getD {}, fields := fields.getD [] }

/-- A collection freshly constructed with only a builder-less registry
and a name: every optional constructor argument omitted. -/
def Collection.new (name : String) : Collection :=
  Collection.mkC [] name none none none

/-- `findField(field)`: the first declared field with the given name
(collection.ts lines 60-62). -/
def Collection.findField (st : Collection) (field : String) : Option Field :=
  st.fields.find? (fun f => f.name == field)

/-- Applies a function to the last element of a list, leaving the rest
unchanged; this is how a fluent call on the field just appended by
`field()` acts on the collection state. -/
def mapLast {α : Type} (g : α → α) : List α → List α
  | [] => []
  | [a] => [g a]
  | a :: b :: rest => a :: mapLast g (b :: rest)

/-- A fluent `special` call on the most recently declared field. -/
def chainSpecial (st : Collection) (kinds : List String) : Collection :=
  { st with fields := mapLast (fun f => f.special kinds) st.fields }

/-- A fluent `notNullable` call on the most recently declared field. -/
def chainNotNullable (st : Collection) : Collection :=
  { st with fields := mapLast Field.notNullable st.fields }

/-- A fluent `pk` call on the most recently declared field. -/
def chainPk (st : Collection) : Collection :=
  { st with fields := mapLast Field.pk st.fields }

/-- A fluent `autoincrement` call on the most recently declared field. -/
def chainAutoincrement (st : Collection) : Collection :=
  { st with fields := mapLast Field.autoincrement st.fields }

/-- A fluent `interface` call on the most recently declared field. -/
def chainInterface (st : Collection) (name : String)
    (options : Option (List (String × OptVal))) : Collection :=
  { st with fields := mapLast (fun f => f.setInterface name options) st.fields }

/-- A fluent `display` call on the most recently declared field. -/
def chainDisplay (st : Collection) (name : String)
    (options : Option (List (String × OptVal))) : Collection :=
  { st with fields := mapLast (fun f => f.setDisplay name options) st.fields }

/-- Modelled from the spec: a fluent `relation(relatedCollection)` call
on the most recently declared field registers
`(owning collection name, field name, related collection)` with the
registry (spec sections 4.2, 6 and 9); the owning collection name is the
stored back-reference of the field. -/
def chainRelation (st : Collection) (related : Option String) : Collection :=
  match st.fields.getLast? with
  | some f =>
      { st with builder := st.builder ++
          [{ collection := f.collection, field := f.name,
             related_collection := related }] }
  | none => st

/-- Modelled from the spec: a fluent `on_delete(policy)` call sets the
delete policy of the relation just registered for the field (spec
section 3: a relation is an edge with an `on_delete` policy, owned by
the registry). -/
def chainOnDelete (st : Collection) (policy : String) : Collection :=
  { st with builder := mapLast (fun r => { r with on_delete := some policy }) st.builder }

/-- `hidden(value)` (collection.ts lines 64-67); the TS default for the
omitted argument is `true`. -/
def Collection.hidden (st : Collection) (value : Bool) : Collection :=
  { st with meta := { st.meta with hidden := some value } }

/-- `singleton(value)` (collection.ts lines 69-72); the TS default for
the omitted argument is `true`. -/
def Collection.singleton (st : Collection) (value : Bool) : Collection :=
  { st with meta := { st.meta with singleton := some value } }

/-- `sort(field)` (collection.ts lines 74-77). -/
def Collection.sort (st : Collection) (field : String) : Collection :=
  { st with meta := { st.meta with sort_field := some field } }

/-- `archive(field, archive, unarchive, filter)` (collection.ts lines
79-90): sets the four archive keys of `meta`; `none` stands for the TS
`null` argument. -/
def Collection.archive (st : Collection) (field : String)
    (archive unarchive : Option String) (filter : Bool) : Collection :=
  { st with meta := { st.meta with
      archive_field := some field,
      archive_value := some archive,
      unarchive_value := some unarchive,
      archive_app_filter := some filter } }

/-- `archive(field)` with every defaulted argument omitted: the TS
defaults are `"archived"`, `"draft"` and `true`. -/
def Collection.archiveDefaults (st : Collection) (field : String) : Collection :=
  Collection.archive st field (some "archived") (some "draft") true

/-- `accountability(value)` (collection.ts lines 92-95). -/
def Collection.accountability (st : Collection)
    (value : Option Accountability) : Collection :=
  { st with meta := { st.meta with accountability := some value } }

/-- `translation(language, translation, singular?, plural?)`
(collection.ts lines 97-104): initializes `meta.translations` to `[]`
when it is not yet an array, then pushes one entry. -/
def Collection.translation (st : Collection) (language translation : String)
    (singular plural : Option String) : Collection :=
  { st with meta := { st.meta with
      translations := some ((st.meta.translations.getD []) ++
        [{ language := language, translation := translation,
           singular := singular, plural := plural }]) } }

/-- `field(name, type, schema?, meta?)` (collection.ts lines 106-110):
constructs a field owned by this collection and appends it. -/
def Collection.field (st : Collection) (name type : String)
    (schema : Option FieldSchema) (meta : Option FieldMeta) : Collection :=
  { st with fields := st.fields ++ [Field.mkF st.name name type schema meta] }

/-- `relation(field, related_collection)` (collection.ts lines
112-115): delegates to the registry with the collection name. -/
def Collection.relation (st : Collection) (field : String)
    (related_collection : Option String) : Collection :=
  { st with builder := st.builder ++
      [{ collection := st.name, field := field,
         related_collection := related_collection }] }

/-- The type argument of `primary_key`. -/
inductive PKType
  | integer
  | uuid
  | string
  deriving DecidableEq, Repr

/-- The storage-type name of each `primary_key` type argument. -/
def PKType.toStr : PKType → String
  | .integer => "integer"
  | .uuid => "uuid"
  | .string => "string"

/-- `primary_key(name, type)` (collection.ts lines 117-126):
`field(name, type).notNullable().pk()`, then autoincrement for integer,
the `uuid` special tag for uuid, and nothing more for string. -/
def Collection.primary_key (st : Collection) (name : String) (t : PKType) : Collection :=
  let st1 := chainPk (chainNotNullable (Collection.field st name t.toStr none none))
  match t with
  | .integer => chainAutoincrement st1
  | .uuid => chainSpecial st1 ["uuid"]
  | .string => st1

/-- The `on_create` argument of `uuid`: `"uuid" | "user" | "role"`,
with the TS `null` being `Option.none` at use sites. -/
inductive OnCreate
  | uuid
  | user
  | role
  deriving DecidableEq, Repr

/-- The `on_update` argument of `uuid`: `"user" | "role"`, with the TS
`null` being `Option.none` at use sites. -/
inductive OnUpdate
  | user
  | role
  deriving DecidableEq, Repr

/-- The create-stamp special tag chosen by the `on_create` options map
of `uuid` (collection.ts lines 236-240). -/
def onCreateTag : OnCreate → String
  | .uuid => "uuid"
  | .user => "user-created"
  | .role => "role-created"

/-- The update-stamp special tag chosen by the `on_update` options map
of `uuid` (collection.ts lines 246-249). -/
def onUpdateTag : OnUpdate → String
  | .user => "user-updated"
  | .role => "role-updated"

/-- The special-tag list `uuid` accumulates: the mapped create tag when
`on_create` is set, then the mapped update tag when `on_update` is set
(collection.ts lines 233-252). -/
def uuidTags (on_create : Option OnCreate) (on_update : Option OnUpdate) : List String :=
  (match on_create with
   | some c => [onCreateTag c]
   | none => []) ++
  (match on_update with
   | some u => [onUpdateTag u]
   | none => [])

/-- `uuid(name, on_create, on_update)` (collection.ts lines 230-259):
declares a uuid field and, when the accumulated tag list is nonempty,
applies a single `special` call with it. -/
def Collection.uuid (st : Collection) (name : String)
    (on_create : Option OnCreate) (on_update : Option OnUpdate) : Collection :=
  let st1 := Collection.field st name "uuid" none none
  let special := uuidTags on_create on_update
  if special.length = 0 then st1 else chainSpecial st1 special

/-- `user_created(name, template)` (collection.ts lines 128-134); the
TS default template is the user-thumbnail one. -/
def Collection.user_created (st : Collection) (name template : String) : Collection :=
  chainOnDelete
    (chainRelation
      (chainDisplay
        (chainInterface (Collection.uuid st name (some .user) none)
          "select-dropdown-m2o" (some [("template", OptVal.str template)]))
        "user" none)
      (some "directus_users"))
    "SET NULL"

/-- `role_created(name, template)` (collection.ts lines 136-144). -/
def Collection.role_created (st : Collection) (name template : String) : Collection :=
  chainOnDelete
    (chainRelation
      (chainDisplay
        (chainInterface (Collection.uuid st name (some .role) none)
          "select-dropdown-m2o" (some [("template", OptVal.str template)]))
        "related-values" (some [("template", OptVal.str template)]))
      (some "directus_roles"))
    "SET NULL"

/-- `user_updated(name, template)` (collection.ts lines 146-152): the
stamp kind is passed as the `on_update` argument of `uuid`. -/
def Collection.user_updated (st : Collection) (name template : String) : Collection :=
  chainOnDelete
    (chainRelation
      (chainDisplay
        (chainInterface (Collection.uuid st name none (some .user))
          "select-dropdown-m2o" (some [("template", OptVal.str template)]))
        "user" none)
      (some "directus_users"))
    "SET NULL"

/-- `role_updated(name, template)` (collection.ts lines 154-162): the
stamp kind is passed as the `on_update` argument of `uuid`. -/
def Collection.role_updated (st : Collection) (name template : String) : Collection :=
  chainOnDelete
    (chainRelation
      (chainDisplay
        (chainInterface (Collection.uuid st name none (some .role))
          "select-dropdown-m2o" (some [("template", OptVal.str template)]))
        "related-values" (some [("template", OptVal.str template)]))
      (some "directus_roles"))
    "SET NULL"

/-- The free function `date_special(field, on_create, on_updated)`
(collection.ts lines 27-43), acting on the most recently declared
field: builds the tag list and applies one `special` call when it is
nonempty. -/
def date_special (st : Collection) (on_create on_updated : Bool) : Collection :=
  let special := (if on_create then ["date-created"] else []) ++
    (if on_updated then ["date-updated"] else [])
  if special.length = 0 then st else chainSpecial st special

/-- `datetime(name, on_create, on_updated)` (collection.ts lines
206-208); the TS defaults for the flags are `false`. -/
def Collection.datetime (st : Collection) (name : String)
    (on_create on_updated : Bool) : Collection :=
  date_special (Collection.field st name "datetime" none none) on_create on_updated

/-- `timestamp(name, on_create, on_updated)` (collection.ts lines
210-212). -/
def Collection.timestamp (st : Collection) (name : String)
    (on_create on_updated : Bool) : Collection :=
  date_special (Collection.field st name "timestamp" none none) on_create on_updated

/-- `date(name, on_create, on_updated)` (collection.ts lines 214-216). -/
def Collection.date (st : Collection) (name : String)
    (on_create on_updated : Bool) : Collection :=
  date_special (Collection.field st name "date" none none) on_create on_updated

/-- `time(name, on_create, on_updated)` (collection.ts lines 218-220). -/
def Collection.time (st : Collection) (name : String)
    (on_create on_updated : Bool) : Collection :=
  date_special (Collection.field st name "time" none none) on_create on_updated

/-- `date_created(name)` (collection.ts lines 164-166). -/
def Collection.date_created (st : Collection) (name : String) : Collection :=
  chainDisplay
    (chainInterface (Collection.timestamp st name true false) "datetime" none)
    "datetime" (some [("relative", OptVal.bool true)])

/-- `date_updated(name)` (collection.ts lines 168-170). -/
def Collection.date_updated (st : Collection) (name : String) : Collection :=
  chainDisplay
    (chainInterface (Collection.timestamp st name false true) "datetime" none)
    "datetime" (some [("relative", OptVal.bool true)])

/-- `string(name, max_length)` (collection.ts lines 172-174); the TS
default max length is 255. -/
def Collection.string (st : Collection) (name : String) (max_length : Nat) : Collection :=
  Collection.field st name "string" (some { max_length := some max_length }) none

/-- `text(name)` (collection.ts lines 176-178). -/
def Collection.text (st : Collection) (name : String) : Collection :=
  Collection.field st name "text" none none

/-- `boolean(name)` (collection.ts lines 180-182). -/
def Collection.boolean (st : Collection) (name : String) : Collection :=
  chainSpecial (Collection.field st name "boolean" none none) ["boolean"]

/-- `integer(name, precision)` (collection.ts lines 184-186); the TS
default precision is 32. -/
def Collection.integer (st : Collection) (name : String) (precision : Nat) : Collection :=
  Collection.field st name "integer" (some { numeric_precision := some precision }) none

/-- `bigInteger(name, precision)` (collection.ts lines 188-190); the TS
default precision is 64. -/
def Collection.bigInteger (st : Collection) (name : String) (precision : Nat) : Collection :=
  Collection.field st name "bigInteger" (some { numeric_precision := some precision }) none

/-- `float(name, precision, scale)` (collection.ts lines 192-197); the
TS defaults are 10 and 5. -/
def Collection.float (st : Collection) (name : String) (precision scale : Nat) : Collection :=
  Collection.field st name "float"
    (some { numeric_precision := some precision, numeric_scale := some scale }) none

/-- `decimal(name, precision, scale)` (collection.ts lines 199-204);
the TS defaults are 10 and 5. -/
def Collection.decimal (st : Collection) (name : String) (precision scale : Nat) : Collection :=
  Collection.field st name "decimal"
    (some { numeric_precision := some precision, numeric_scale := some scale }) none

/-- `json(name)` (collection.ts lines 222-224). -/
def Collection.json (st : Collection) (name : String) : Collection :=
  chainSpecial (Collection.field st name "json" none none) ["json"]

/-- `csv(name)` (collection.ts lines 226-228). -/
def Collection.csv (st : Collection) (name : String) : Collection :=
  chainSpecial (Collection.field st name "csv" none none) ["csv"]

/-- `hash(name)` (collection.ts lines 261-263). -/
def Collection.hash (st : Collection) (name : String) : Collection :=
  chainSpecial (Collection.field st name "hash" none none) ["hash"]

/-- `geometryPoint(name)` (collection.ts lines 265-267). -/
def Collection.geometryPoint (st : Collection) (name : String) : Collection :=
  Collection.field st name "geometry.Point" none none

/-- `geometryLineString(name)` (collection.ts lines 269-271). -/
def Collection.geometryLineString (st : Collection) (name : String) : Collection :=
  Collection.field st name "geometry.LineString" none none

/-- `geometryPolygon(name)` (collection.ts lines 273-275). -/
def Collection.geometryPolygon (st : Collection) (name : String) : Collection :=
  Collection.field st name "geometry.Polygon" none none

/-- `geometryMultiPoint(name)` (collection.ts lines 277-279). -/
def Collection.geometryMultiPoint (st : Collection) (name : String) : Collection :=
  Collection.field st name "geometry.MultiPoint" none none

/-- `geometryMultiLineString(name)` (collection.ts lines 281-283). -/
def Collection.geometryMultiLineString (st : Collection) (name : String) : Collection :=
  Collection.field st name "geometry.MultiLineString" none none

/-- `geometryMultiPolygon(name)` (collection.ts lines 285-287). -/
def Collection.geometryMultiPolygon (st : Collection) (name : String) : Collection :=
  Collection.field st name "geometry.MultiPolygon" none none

/-- `file(name)` (collection.ts lines 289-295). -/
def Collection.file (st : Collection) (name : String) : Collection :=
  chainOnDelete
    (chainRelation
      (chainDisplay
        (chainInterface
          (chainSpecial (Collection.field st name "uuid" none none) ["file"])
          "file" none)
        "file" none)
      (some "directus_files"))
    "SET NULL"

/-- `image(name)` (collection.ts lines 297-303). -/
def Collection.image (st : Collection) (name : String) : Collection :=
  chainOnDelete
    (chainRelation
      (chainDisplay
        (chainInterface
          (chainSpecial (Collection.field st name "uuid" none none) ["file"])
          "file-image" none)
        "image" none)
      (some "directus_files"))
    "SET NULL"

/-- The rendered form of a collection:
`\x7bcollection, schema, meta, fields\x7d` (collection.ts lines
305-312). -/
structure RenderedCollection where
  collection : String
  schema : CollectionSchema
  meta : CollectionMeta
  fields : List RenderedField
  deriving DecidableEq, Repr

/-- `render()` (collection.ts lines 305-312): the canonical descriptor
tree of the current state, rendering each field in declaration order. -/
def Collection.render (st : Collection) : RenderedCollection :=
  { collection := st.name, schema := st.schema, meta := st.meta,
    fields := st.fields.map Field.render }

/-- A field-declaring call of the `Collection` API: one constructor per
method that appends a field descriptor, carrying the arguments of the
call (with TS-defaulted arguments made explicit). -/
inductive FieldCall
  | field (name type : String) (schema : Option FieldSchema) (meta : Option FieldMeta)
  | primary_key (name : String) (t : PKType)
  | user_created (name template : String)
  | role_created (name template : String)
  | user_updated (name template : String)
  | role_updated (name template : String)
  | date_created (name : String)
  | date_updated (name : String)
  | string (name : String) (max_length : Nat)
  | text (name : String)
  | boolean (name : String)
  | integer (name : String) (precision : Nat)
  | bigInteger (name : String) (precision : Nat)
  | float (name : String) (precision scale : Nat)
  | decimal (name : String) (precision scale : Nat)
  | datetime (name : String) (on_create on_updated : Bool)
  | timestamp (name : String) (on_create on_updated : Bool)
  | date (name : String) (on_create on_updated : Bool)
  | time (name : String) (on_create on_updated : Bool)
  | json (name : String)
  | csv (name : String)
  | uuid (name : String) (on_create : Option OnCreate) (on_update : Option OnUpdate)
  | hash (name : String)
  | geometryPoint (name : String)
  | geometryLineString (name : String)
  | geometryPolygon (name : String)
  | geometryMultiPoint (name : String)
  | geometryMultiLineString (name : String)
  | geometryMultiPolygon (name : String)
  | file (name : String)
  | image (name : String)
  deriving DecidableEq, Repr

/-- Dispatches a field-declaring call to the matching method. -/
def applyFieldCall (st : Collection) : FieldCall → Collection
  | .field n t s m => Collection.field st n t s m
  | .primary_key n t => Collection.primary_key st n t
  | .user_created n tpl => Collection.user_created st n tpl
  | .role_created n tpl => Collection.role_created st n tpl
  | .user_updated n tpl => Collection.user_updated st n tpl
  | .role_updated n tpl => Collection.role_updated st n tpl
  | .date_created n => Collection.date_created st n
  | .date_updated n => Collection.date_updated st n
  | .string n ml => Collection.string st n ml
  | .text n => Collection.text st n
  | .boolean n => Collection.boolean st n
  | .integer n p => Collection.integer st n p
  | .bigInteger n p => Collection.bigInteger st n p
  | .float n p s => Collection.float st n p s
  | .decimal n p s => Collection.decimal st n p s
  | .datetime n oc ou => Collection.datetime st n oc ou
  | .timestamp n oc ou => Collection.timestamp st n oc ou
  | .date n oc ou => Collection.date st n oc ou
  | .time n oc ou => Collection.time st n oc ou
  | .json n => Collection.json st n
  | .csv n => Collection.csv st n
  | .uuid n oc ou => Collection.uuid st n oc ou
  | .hash n => Collection.hash st n
  | .geometryPoint n => Collection.geometryPoint st n
  | .geometryLineString n => Collection.geometryLineString st n
  | .geometryPolygon n => Collection.geometryPolygon st n
  | .geometryMultiPoint n => Collection.geometryMultiPoint st n
  | .geometryMultiLineString n => Collection.geometryMultiLineString st n
  | .geometryMultiPolygon n => Collection.geometryMultiPolygon st n
  | .file n => Collection.file st n
  | .image n => Collection.image st n

/-- The field descriptor a field-declaring call appends, read off from
the call applied to a fresh collection of the given name. -/
def madeField (cname : String) (c : FieldCall) : Field :=
  match (applyFieldCall (Collection.new cname) c).fields with
  | f :: _ => f
  | [] => Field.mkF cname "" "" none none

/-- Iterates `applyFieldCall` over a list of calls, first call first. -/
def applyFieldCalls (st : Collection) : List FieldCall → Collection
  | [] => st
  | c :: cs => applyFieldCalls (applyFieldCall st c) cs

theorem mapLast_cons_of_ne_nil {α : Type} (g : α → α) (a : α) (l : List α)
    (h : l ≠ []) : mapLast g (a :: l) = a :: mapLast g l := by
  cases l with
  | nil => exact absurd rfl h
  | cons b t => rfl

theorem mapLast_concat {α : Type} (g : α → α) (l : List α) (x : α) :
    mapLast g (l ++ [x]) = l ++ [g x] := by
  induction l with
  | nil => rfl
  | cons a t ih =>
      rw [List.cons_append, mapLast_cons_of_ne_nil, ih, List.cons_append]
      simp

theorem getLast_concat_eq {α : Type} (xs : List α) (x : α) :
    (xs ++ [x]).getLast? = some x := by
  rw [List.getLast?_append_cons]
  rfl

theorem chainRelation_fields (st : Collection) (r : Option String) :
    (chainRelation st r).fields = st.fields := by
  unfold chainRelation
  cases st.fields.getLast? <;> rfl

theorem chainRelation_name (st : Collection) (r : Option String) :
    (chainRelation st r).name = st.name := by
  unfold chainRelation
  cases st.fields.getLast? <;> rfl

theorem chainRelation_concat (st : Collection) (r : Option String)
    (xs : List Field) (x : Field) (h : st.fields = xs ++ [x]) :
    chainRelation st r = { st with builder := st.builder ++
      [{ collection := x.collection, field := x.name, related_collection := r }] } := by
  unfold chainRelation
  rw [h, getLast_concat_eq]



theorem applyFieldCall_fields (st : Collection) (c : FieldCall) :
    (applyFieldCall st c).fields = st.fields ++ [madeField st.name c] := by
  cases c <;>
    try simp [applyFieldCall, madeField, Collection.new, Collection.mkC,
      Collection.field, Collection.primary_key, Collection.user_created,
      Collection.role_created, Collection.user_updated, Collection.role_updated,
      Collection.date_created, Collection.date_updated, Collection.string,
      Collection.text, Collection.boolean, Collection.integer,
      Collection.bigInteger, Collection.float, Collection.decimal,
      Collection.datetime, Collection.timestamp, Collection.date,
      Collection.time, Collection.json, Collection.csv, Collection.uuid,
      Collection.hash, Collection.geometryPoint, Collection.geometryLineString,
      Collection.geometryPolygon, Collection.geometryMultiPoint,
      Collection.geometryMultiLineString, Collection.geometryMultiPolygon,
      Collection.file, Collection.image,
      chainSpecial, chainNotNullable, chainPk, chainAutoincrement,
      chainInterface, chainDisplay, chainOnDelete, chainRelation_fields,
      date_special, uuidTags, onCreateTag, onUpdateTag, PKType.toStr,
      mapLast_concat, mapLast, Field.mkF]
  case primary_key n t => cases t <;> simp [applyFieldCall, madeField, Collection.new, Collection.mkC,
      Collection.field, Collection.primary_key, Collection.user_created,
      Collection.role_created, Collection.user_updated, Collection.role_updated,
      Collection.date_created, Collection.date_updated, Collection.string,
      Collection.text, Collection.boolean, Collection.integer,
      Collection.bigInteger, Collection.float, Collection.decimal,
      Collection.datetime, Collection.timestamp, Collection.date,
      Collection.time, Collection.json, Collection.csv, Collection.uuid,
      Collection.hash, Collection.geometryPoint, Collection.geometryLineString,
      Collection.geometryPolygon, Collection.geometryMultiPoint,
      Collection.geometryMultiLineString, Collection.geometryMultiPolygon,
      Collection.file, Collection.image,
      chainSpecial, chainNotNullable, chainPk, chainAutoincrement,
      chainInterface, chainDisplay, chainOnDelete, chainRelation_fields,
      date_special, uuidTags, onCreateTag, onUpdateTag, PKType.toStr,
      mapLast_concat, mapLast, Field.mkF]
  case datetime n oc ou => cases oc <;> cases ou <;> simp [applyFieldCall, madeField, Collection.new, Collection.mkC,
      Collection.field, Collection.primary_key, Collection.user_created,
      Collection.role_created, Collection.user_updated, Collection.role_updated,
      Collection.date_created, Collection.date_updated, Collection.string,
      Collection.text, Collection.boolean, Collection.integer,
      Collection.bigInteger, Collection.float, Collection.decimal,
      Collection.datetime, Collection.timestamp, Collection.date,
      Collection.time, Collection.json, Collection.csv, Collection.uuid,
      Collection.hash, Collection.geometryPoint, Collection.geometryLineString,
      Collection.geometryPolygon, Collection.geometryMultiPoint,
      Collection.geometryMultiLineString, Collection.geometryMultiPolygon,
      Collection.file, Collection.image,
      chainSpecial, chainNotNullable, chainPk, chainAutoincrement,
      chainInterface, chainDisplay, chainOnDelete, chainRelation_fields,
      date_special, uuidTags, onCreateTag, onUpdateTag, PKType.toStr,
      mapLast_concat, mapLast, Field.mkF]
  case timestamp n oc ou => cases oc <;> cases ou <;> simp [applyFieldCall, madeField, Collection.new, Collection.mkC,
      Collection.field, Collection.primary_key, Collection.user_created,
      Collection.role_created, Collection.user_updated, Collection.role_updated,
      Collection.date_created, Collection.date_updated, Collection.string,
      Collection.text, Collection.boolean, Collection.integer,
      Collection.bigInteger, Collection.float, Collection.decimal,
      Collection.datetime, Collection.timestamp, Collection.date,
      Collection.time, Collection.json, Collection.csv, Collection.uuid,
      Collection.hash, Collection.geometryPoint, Collection.geometryLineString,
      Collection.geometryPolygon, Collection.geometryMultiPoint,
      Collection.geometryMultiLineString, Collection.geometryMultiPolygon,
      Collection.file, Collection.image,
      chainSpecial, chainNotNullable, chainPk, chainAutoincrement,
      chainInterface, chainDisplay, chainOnDelete, chainRelation_fields,
      date_special, uuidTags, onCreateTag, onUpdateTag, PKType.toStr,
      mapLast_concat, mapLast, Field.mkF]
  case date n oc ou => cases oc <;> cases ou <;> simp [applyFieldCall, madeField, Collection.new, Collection.mkC,
      Collection.field, Collection.primary_key, Collection.user_created,
      Collection.role_created, Collection.user_updated, Collection.role_updated,
      Collection.date_created, Collection.date_updated, Collection.string,
      Collection.text, Collection.boolean, Collection.integer,
      Collection.bigInteger, Collection.float, Collection.decimal,
      Collection.datetime, Collection.timestamp, Collection.date,
      Collection.time, Collection.json, Collection.csv, Collection.uuid,
      Collection.hash, Collection.geometryPoint, Collection.geometryLineString,
      Collection.geometryPolygon, Collection.geometryMultiPoint,
      Collection.geometryMultiLineString, Collection.geometryMultiPolygon,
      Collection.file, Collection.image,
      chainSpecial, chainNotNullable, chainPk, chainAutoincrement,
      chainInterface, chainDisplay, chainOnDelete, chainRelation_fields,
      date_special, uuidTags, onCreateTag, onUpdateTag, PKType.toStr,
      mapLast_concat, mapLast, Field.mkF]
  case time n oc ou => cases oc <;> cases ou <;> simp [applyFieldCall, madeField, Collection.new, Collection.mkC,
      Collection.field, Collection.primary_key, Collection.user_created,
      Collection.role_created, Collection.user_updated, Collection.role_updated,
      Collection.date_created, Collection.date_updated, Collection.string,
      Collection.text, Collection.boolean, Collection.integer,
      Collection.bigInteger, Collection.float, Collection.decimal,
      Collection.datetime, Collection.timestamp, Collection.date,
      Collection.time, Collection.json, Collection.csv, Collection.uuid,
      Collection.hash, Collection.geometryPoint, Collection.geometryLineString,
      Collection.geometryPolygon, Collection.geometryMultiPoint,
      Collection.geometryMultiLineString, Collection.geometryMultiPolygon,
      Collection.file, Collection.image,
      chainSpecial, chainNotNullable, chainPk, chainAutoincrement,
      chainInterface, chainDisplay, chainOnDelete, chainRelation_fields,
      date_special, uuidTags, onCreateTag, onUpdateTag, PKType.toStr,
      mapLast_concat, mapLast, Field.mkF]
  case uuid n oc ou => cases oc <;> cases ou <;> simp [applyFieldCall, madeField, Collection.new, Collection.mkC,
      Collection.field, Collection.primary_key, Collection.user_created,
      Collection.role_created, Collection.user_updated, Collection.role_updated,
      Collection.date_created, Collection.date_updated, Collection.string,
      Collection.text, Collection.boolean, Collection.integer,
      Collection.bigInteger, Collection.float, Collection.decimal,
      Collection.datetime, Collection.timestamp, Collection.date,
      Collection.time, Collection.json, Collection.csv, Collection.uuid,
      Collection.hash, Collection.geometryPoint, Collection.geometryLineString,
      Collection.geometryPolygon, Collection.geometryMultiPoint,
      Collection.geometryMultiLineString, Collection.geometryMultiPolygon,
      Collection.file, Collection.image,
      chainSpecial, chainNotNullable, chainPk, chainAutoincrement,
      chainInterface, chainDisplay, chainOnDelete, chainRelation_fields,
      date_special, uuidTags, onCreateTag, onUpdateTag, PKType.toStr,
      mapLast_concat, mapLast, Field.mkF]

theorem applyFieldCall_name (st : Collection) (c : FieldCall) :
    (applyFieldCall st c).name = st.name := by
  cases c <;>
    try simp [applyFieldCall, Collection.new, Collection.mkC,
      Collection.field, Collection.primary_key, Collection.user_created,
      Collection.role_created, Collection.user_updated, Collection.role_updated,
      Collection.date_created, Collection.date_updated, Collection.string,
      Collection.text, Collection.boolean, Collection.integer,
      Collection.bigInteger, Collection.float, Collection.decimal,
      Collection.datetime, Collection.timestamp, Collection.date,
      Collection.time, Collection.json, Collection.csv, Collection.uuid,
      Collection.hash, Collection.geometryPoint, Collection.geometryLineString,
      Collection.geometryPolygon, Collection.geometryMultiPoint,
      Collection.geometryMultiLineString, Collection.geometryMultiPolygon,
      Collection.file, Collection.image,
      chainSpecial, chainNotNullable, chainPk, chainAutoincrement,
      chainInterface, chainDisplay, chainOnDelete, chainRelation_name,
      date_special, uuidTags, onCreateTag, onUpdateTag, PKType.toStr,
      mapLast_concat, mapLast, Field.mkF]
  case primary_key n t => cases t <;> simp [applyFieldCall, Collection.new, Collection.mkC,
      Collection.field, Collection.primary_key, Collection.user_created,
      Collection.role_created, Collection.user_updated, Collection.role_updated,
      Collection.date_created, Collection.date_updated, Collection.string,
      Collection.text, Collection.boolean, Collection.integer,
      Collection.bigInteger, Collection.float, Collection.decimal,
      Collection.datetime, Collection.timestamp, Collection.date,
      Collection.time, Collection.json, Collection.csv, Collection.uuid,
      Collection.hash, Collection.geometryPoint, Collection.geometryLineString,
      Collection.geometryPolygon, Collection.geometryMultiPoint,
      Collection.geometryMultiLineString, Collection.geometryMultiPolygon,
      Collection.file, Collection.image,
      chainSpecial, chainNotNullable, chainPk, chainAutoincrement,
      chainInterface, chainDisplay, chainOnDelete, chainRelation_name,
      date_special, uuidTags, onCreateTag, onUpdateTag, PKType.toStr,
      mapLast_concat, mapLast, Field.mkF]
  case datetime n oc ou => cases oc <;> cases ou <;> simp [applyFieldCall, Collection.new, Collection.mkC,
      Collection.field, Collection.primary_key, Collection.user_created,
      Collection.role_created, Collection.user_updated, Collection.role_updated,
      Collection.date_created, Collection.date_updated, Collection.string,
      Collection.text, Collection.boolean, Collection.integer,
      Collection.bigInteger, Collection.float, Collection.decimal,
      Collection.datetime, Collection.timestamp, Collection.date,
      Collection.time, Collection.json, Collection.csv, Collection.uuid,
      Collection.hash, Collection.geometryPoint, Collection.geometryLineString,
      Collection.geometryPolygon, Collection.geometryMultiPoint,
      Collection.geometryMultiLineString, Collection.geometryMultiPolygon,
      Collection.file, Collection.image,
      chainSpecial, chainNotNullable, chainPk, chainAutoincrement,
      chainInterface, chainDisplay, chainOnDelete, chainRelation_name,
      date_special, uuidTags, onCreateTag, onUpdateTag, PKType.toStr,
      mapLast_concat, mapLast, Field.mkF]
  case timestamp n oc ou => cases oc <;> cases ou <;> simp [applyFieldCall, Collection.new, Collection.mkC,
      Collection.field, Collection.primary_key, Collection.user_created,
      Collection.role_created, Collection.user_updated, Collection.role_updated,
      Collection.date_created, Collection.date_updated, Collection.string,
      Collection.text, Collection.boolean, Collection.integer,
      Collection.bigInteger, Collection.float, Collection.decimal,
      Collection.datetime, Collection.timestamp, Collection.date,
      Collection.time, Collection.json, Collection.csv, Collection.uuid,
      Collection.hash, Collection.geometryPoint, Collection.geometryLineString,
      Collection.geometryPolygon, Collection.geometryMultiPoint,
      Collection.geometryMultiLineString, Collection.geometryMultiPolygon,
      Collection.file, Collection.image,
      chainSpecial, chainNotNullable, chainPk, chainAutoincrement,
      chainInterface, chainDisplay, chainOnDelete, chainRelation_name,
      date_special, uuidTags, onCreateTag, onUpdateTag, PKType.toStr,
      mapLast_concat, mapLast, Field.mkF]
  case date n oc ou => cases oc <;> cases ou <;> simp [applyFieldCall, Collection.new, Collection.mkC,
      Collection.field, Collection.primary_key, Collection.user_created,
      Collection.role_created, Collection.user_updated, Collection.role_updated,
      Collection.date_created, Collection.date_updated, Collection.string,
      Collection.text, Collection.boolean, Collection.integer,
      Collection.bigInteger, Collection.float, Collection.decimal,
      Collection.datetime, Collection.timestamp, Collection.date,
      Collection.time, Collection.json, Collection.csv, Collection.uuid,
      Collection.hash, Collection.geometryPoint, Collection.geometryLineString,
      Collection.geometryPolygon, Collection.geometryMultiPoint,
      Collection.geometryMultiLineString, Collection.geometryMultiPolygon,
      Collection.file, Collection.image,
      chainSpecial, chainNotNullable, chainPk, chainAutoincrement,
      chainInterface, chainDisplay, chainOnDelete, chainRelation_name,
      date_special, uuidTags, onCreateTag, onUpdateTag, PKType.toStr,
      mapLast_concat, mapLast, Field.mkF]
  case time n oc ou => cases oc <;> cases ou <;> simp [applyFieldCall, Collection.new, Collection.mkC,
      Collection.field, Collection.primary_key, Collection.user_created,
      Collection.role_created, Collection.user_updated, Collection.role_updated,
      Collection.date_created, Collection.date_updated, Collection.string,
      Collection.text, Collection.boolean, Collection.integer,
      Collection.bigInteger, Collection.float, Collection.decimal,
      Collection.datetime, Collection.timestamp, Collection.date,
      Collection.time, Collection.json, Collection.csv, Collection.uuid,
      Collection.hash, Collection.geometryPoint, Collection.geometryLineString,
      Collection.geometryPolygon, Collection.geometryMultiPoint,
      Collection.geometryMultiLineString, Collection.geometryMultiPolygon,
      Collection.file, Collection.image,
      chainSpecial, chainNotNullable, chainPk, chainAutoincrement,
      chainInterface, chainDisplay, chainOnDelete, chainRelation_name,
      date_special, uuidTags, onCreateTag, onUpdateTag, PKType.toStr,
      mapLast_concat, mapLast, Field.mkF]
  case uuid n oc ou => cases oc <;> cases ou <;> simp [applyFieldCall, Collection.new, Collection.mkC,
      Collection.field, Collection.primary_key, Collection.user_created,
      Collection.role_created, Collection.user_updated, Collection.role_updated,
      Collection.date_created, Collection.date_updated, Collection.string,
      Collection.text, Collection.boolean, Collection.integer,
      Collection.bigInteger, Collection.float, Collection.decimal,
      Collection.datetime, Collection.timestamp, Collection.date,
      Collection.time, Collection.json, Collection.csv, Collection.uuid,
      Collection.hash, Collection.geometryPoint, Collection.geometryLineString,
      Collection.geometryPolygon, Collection.geometryMultiPoint,
      Collection.geometryMultiLineString, Collection.geometryMultiPolygon,
      Collection.file, Collection.image,
      chainSpecial, chainNotNullable, chainPk, chainAutoincrement,
      chainInterface, chainDisplay, chainOnDelete, chainRelation_name,
      date_special, uuidTags, onCreateTag, onUpdateTag, PKType.toStr,
      mapLast_concat, mapLast, Field.mkF]

theorem applyFieldCalls_fields (st : Collection) (cs : List FieldCall) :
    (applyFieldCalls st cs).fields = st.fields ++ cs.map (madeField st.name) ∧
    (applyFieldCalls st cs).name = st.name := by
  induction cs generalizing st with
  | nil => simp [applyFieldCalls]
  | cons c cs ih =>
      have h1 := applyFieldCall_fields st c
      have h2 := applyFieldCall_name st c
      have ih1 := (ih (applyFieldCall st c)).1
      have ih2 := (ih (applyFieldCall st c)).2
      constructor
      · rw [applyFieldCalls, ih1, h1, h2, List.map_cons, List.append_assoc,
          List.singleton_append]
      · rw [applyFieldCalls, ih2, h2]

/-- Claim C1: for every sequence of field-declaring calls on a freshly
constructed collection, `render().fields` contains one rendered field
per call, appearing in exactly the order the calls were made, and its
length equals the number of calls. -/
theorem render_fields_declaration_order (cname : String) (cs : List FieldCall) :
    (Collection.render (applyFieldCalls (Collection.new cname) cs)).fields
        = cs.map (fun c => Field.render (madeField cname c)) ∧
    (Collection.render (applyFieldCalls (Collection.new cname) cs)).fields.length
        = cs.length := by
  have h := applyFieldCalls_fields (Collection.new cname) cs
  constructor
  · rw [Collection.render]
    have hn : (Collection.new cname).name = cname := rfl
    have hf : (Collection.new cname).fields = [] := rfl
    rw [hn, hf] at h
    rw [h.1]
    simp
  · rw [Collection.render]
    have hn : (Collection.new cname).name = cname := rfl
    have hf : (Collection.new cname).fields = [] := rfl
    rw [hn, hf] at h
    rw [h.1]
    simp

/-- Claim C2: `primary_key(name, type)` appends a field of the given
type with the nullable flag cleared and the primary-key flag set; the
integer variant additionally sets the autoincrement flag, the uuid
variant instead carries the special tag `uuid` and leaves autoincrement
unset, and the string variant applies no extra tagging. -/
theorem primary_key_correct (st : Collection) (nm : String) :
    Collection.primary_key st nm PKType.integer = { st with fields := st.fields ++
      [{ collection := st.name, name := nm, type := "integer",
         schema := { nullable := some false, primary_key := some true,
                     autoincrement := some true },
         meta := {} }] } ∧
    Collection.primary_key st nm PKType.uuid = { st with fields := st.fields ++
      [{ collection := st.name, name := nm, type := "uuid",
         schema := { nullable := some false, primary_key := some true },
         meta := { special := some ["uuid"] } }] } ∧
    Collection.primary_key st nm PKType.string = { st with fields := st.fields ++
      [{ collection := st.name, name := nm, type := "string",
         schema := { nullable := some false, primary_key := some true },
         meta := {} }] } := by
  refine ⟨?_, ?_, ?_⟩ <;>
    simp [Collection.primary_key, Collection.field, chainNotNullable, chainPk,
      chainAutoincrement, chainSpecial, mapLast_concat, Field.mkF,
      Field.notNullable, Field.pk, Field.autoincrement, Field.special,
      PKType.toStr]

/-- Claim C3: `uuid(name, on_create, on_update)` appends a uuid-typed
field whose special tags are the mapped create tag followed by the
mapped update tag, each present exactly when its argument is present
and always in create-then-update order; in particular the user/role
combination yields exactly `["user-created", "role-updated"]`. -/
theorem uuid_special_tags (st : Collection) (nm : String)
    (oc : Option OnCreate) (ou : Option OnUpdate) :
    ((Collection.uuid st nm oc ou).fields.getLast?).map Field.specialTags
        = some (uuidTags oc ou) ∧
    ((Collection.uuid st nm oc ou).fields.getLast?).map Field.type
        = some "uuid" ∧
    uuidTags oc ou = (oc.elim [] fun c => [onCreateTag c]) ++
        (ou.elim [] fun u => [onUpdateTag u]) ∧
    ((Collection.uuid st "owner" (some OnCreate.user)
        (some OnUpdate.role)).fields.getLast?).map Field.specialTags
        = some ["user-created", "role-updated"] := by
  refine ⟨?_, ?_, ?_, ?_⟩ <;>
    cases oc <;> cases ou <;>
      simp [Collection.uuid, uuidTags, onCreateTag, onUpdateTag,
        Collection.field, chainSpecial, mapLast_concat, Field.mkF,
        Field.special, Field.specialTags, getLast_concat_eq]

/-- Erases the interface and display names and options of a field, for
stating that two fields agree except in those components. -/
def eraseInterfaceDisplay (f : Field) : Field :=
  { f with meta := { f.meta with
      interface := none,
      options := none,
      display := none,
      display_options := none } }

/-- Claim C4: each stamp helper appends a uuid-typed field carrying the
matching special tag (the `_updated` variants obtain theirs through the
update argument of `uuid`), wires an interface/display pair, and
registers a relation to `directus_users` or `directus_roles` with
delete policy `SET NULL`. -/
theorem stamp_helpers_correct (st : Collection) (nm tpl : String) :
    Collection.user_created st nm tpl = { st with
      fields := st.fields ++ [{
        collection := st.name, name := nm, type := "uuid",
        meta := { interface := some "select-dropdown-m2o",
                  options := some [("template", OptVal.str tpl)],
                  display := some "user",
                  special := some ["user-created"] } }],
      builder := st.builder ++ [{
        collection := st.name, field := nm,
        related_collection := some "directus_users",
        on_delete := some "SET NULL" }] } ∧
    Collection.role_created st nm tpl = { st with
      fields := st.fields ++ [{
        collection := st.name, name := nm, type := "uuid",
        meta := { interface := some "select-dropdown-m2o",
                  options := some [("template", OptVal.str tpl)],
                  display := some "related-values",
                  display_options := some [("template", OptVal.str tpl)],
                  special := some ["role-created"] } }],
      builder := st.builder ++ [{
        collection := st.name, field := nm,
        related_collection := some "directus_roles",
        on_delete := some "SET NULL" }] } ∧
    Collection.user_updated st nm tpl = { st with
      fields := st.fields ++ [{
        collection := st.name, name := nm, type := "uuid",
        meta := { interface := some "select-dropdown-m2o",
                  options := some [("template", OptVal.str tpl)],
                  display := some "user",
                  special := some ["user-updated"] } }],
      builder := st.builder ++ [{
        collection := st.name, field := nm,
        related_collection := some "directus_users",
        on_delete := some "SET NULL" }] } ∧
    Collection.role_updated st nm tpl = { st with
      fields := st.fields ++ [{
        collection := st.name, name := nm, type := "uuid",
        meta := { interface := some "select-dropdown-m2o",
                  options := some [("template", OptVal.str tpl)],
                  display := some "related-values",
                  display_options := some [("template", OptVal.str tpl)],
                  special := some ["role-updated"] } }],
      builder := st.builder ++ [{
        collection := st.name, field := nm,
        related_collection := some "directus_roles",
        on_delete := some "SET NULL" }] } := by
  refine ⟨?_, ?_, ?_, ?_⟩ <;>
    simp [Collection.user_created, Collection.role_created,
      Collection.user_updated, Collection.role_updated, Collection.uuid,
      uuidTags, onCreateTag, onUpdateTag, Collection.field, chainSpecial,
      chainInterface, chainDisplay, chainRelation, chainOnDelete,
      mapLast_concat, mapLast, Field.mkF, Field.special, Field.setInterface,
      Field.setDisplay, getLast_concat_eq]

/-- Claim C5: `file(name)` and `image(name)` both append a uuid-typed
field with special tag `file` and register a relation to
`directus_files` with delete policy `SET NULL`; the two fields differ
only in the interface and display names. -/
theorem file_image_correct (st : Collection) (nm : String) :
    Collection.file st nm = { st with
      fields := st.fields ++ [{
        collection := st.name, name := nm, type := "uuid",
        meta := { interface := some "file",
                  display := some "file",
                  special := some ["file"] } }],
      builder := st.builder ++ [{
        collection := st.name, field := nm,
        related_collection := some "directus_files",
        on_delete := some "SET NULL" }] } ∧
    Collection.image st nm = { st with
      fields := st.fields ++ [{
        collection := st.name, name := nm, type := "uuid",
        meta := { interface := some "file-image",
                  display := some "image",
                  special := some ["file"] } }],
      builder := st.builder ++ [{
        collection := st.name, field := nm,
        related_collection := some "directus_files",
        on_delete := some "SET NULL" }] } ∧
    ((Collection.file st nm).fields.getLast?).map eraseInterfaceDisplay
        = ((Collection.image st nm).fields.getLast?).map eraseInterfaceDisplay ∧
    (Collection.file st nm).builder = (Collection.image st nm).builder := by
  refine ⟨?_, ?_, ?_, ?_⟩ <;>
    simp [Collection.file, Collection.image, Collection.field, chainSpecial,
      chainInterface, chainDisplay, chainRelation, chainOnDelete,
      mapLast_concat, mapLast, Field.mkF, Field.special, Field.setInterface,
      Field.setDisplay, getLast_concat_eq, eraseInterfaceDisplay]

/-- Claim C6: `archive(field)` with only the field argument sets the
archive field, the default archive and unarchive values and the app
filter flag, touching nothing else and checking nothing about the named
field; an explicit null argument is recorded as an explicit no-value,
distinct from the unset state of a fresh collection. -/
theorem archive_correct (st : Collection) (fl : String) :
    Collection.archiveDefaults st fl = { st with meta := { st.meta with
      archive_field := some fl,
      archive_value := some (some "archived"),
      unarchive_value := some (some "draft"),
      archive_app_filter := some true } } ∧
    (Collection.archive st fl none none true).meta.archive_value = some none ∧
    (Collection.archive st fl none none true).meta.unarchive_value = some none ∧
    (Collection.new "c").meta.archive_value = none ∧
    (Collection.new "c").meta.unarchive_value = none := by
  refine ⟨rfl, rfl, rfl, rfl, rfl⟩

/-- Claim C7: `translation` lazily initializes the translation sequence
and appends exactly one entry per call in call order, leaving all
earlier entries in place; singular and plural stay absent unless
supplied, and a second call appends behind the first. -/
theorem translation_append (st : Collection) (l t : String)
    (s p : Option String) :
    Collection.translation st l t s p = { st with meta := { st.meta with
      translations := some (st.meta.translations.getD [] ++
        [{ language := l, translation := t, singular := s, plural := p }]) } } ∧
    (Collection.translation (Collection.translation st l t s p) l t s p).meta.translations
        = some (st.meta.translations.getD [] ++
          [{ language := l, translation := t, singular := s, plural := p },
           { language := l, translation := t, singular := s, plural := p }]) ∧
    (Collection.translation (Collection.new "c") l t none none).meta.translations
        = some [{ language := l, translation := t }] := by
  refine ⟨rfl, ?_, rfl⟩
  simp [Collection.translation]

/-- Claim C8: `render()` is a pure function of the current state, so
two calls with no intervening mutation return structurally equal
output, and the output is the collection name, schema and meta together
with the declared fields rendered in order. -/
theorem render_pure_shape (st : Collection) :
    Collection.render st = Collection.render st ∧
    Collection.render st = { collection := st.name, schema := st.schema,
                             meta := st.meta,
                             fields := st.fields.map Field.render } :=
  ⟨rfl, rfl⟩

/-- Every `Collection` operation, collection-level setters and
field-declaring calls alike, carrying the arguments of the call. -/
inductive Op
  | hidden (value : Bool)
  | singleton (value : Bool)
  | sort (field : String)
  | archive (field : String) (archive unarchive : Option String) (filter : Bool)
  | accountability (value : Option Accountability)
  | translation (language translation : String) (singular plural : Option String)
  | relation (field : String) (related : Option String)
  | declare (c : FieldCall)
  deriving DecidableEq, Repr

/-- Dispatches an operation to the matching method; a total function,
mirroring the absence of any throw in the source. -/
def applyOp (st : Collection) : Op → Collection
  | .hidden v => Collection.hidden st v
  | .singleton v => Collection.singleton st v
  | .sort f => Collection.sort st f
  | .archive f a u fl => Collection.archive st f a u fl
  | .accountability v => Collection.accountability st v
  | .translation l t s p => Collection.translation st l t s p
  | .relation f r => Collection.relation st f r
  | .declare c => applyFieldCall st c

/-- Structural well-formedness of a collection state: every declared
field carries the owning collection name as its back-reference. -/
def WellFormed (st : Collection) : Prop :=
  ∀ f ∈ st.fields, f.collection = st.name

theorem madeField_collection (cname : String) (c : FieldCall) :
    (madeField cname c).collection = cname := by
  cases c <;> try rfl
  case primary_key n t => cases t <;> rfl
  case datetime n oc ou => cases oc <;> cases ou <;> rfl
  case timestamp n oc ou => cases oc <;> cases ou <;> rfl
  case date n oc ou => cases oc <;> cases ou <;> rfl
  case time n oc ou => cases oc <;> cases ou <;> rfl
  case uuid n oc ou => cases oc <;> cases ou <;> rfl

/-- Claim C9: no operation raises an error: every operation is a total
function of the state, preserves structural well-formedness, and the
setters that name a field perform no check that the field exists: they
encode the given name even when `findField` cannot resolve it. -/
theorem operations_total_no_validation (st : Collection) (op : Op)
    (h : WellFormed st) :
    WellFormed (applyOp st op) ∧
    (∀ fl, Collection.findField st fl = none →
      (Collection.sort st fl).meta.sort_field = some fl ∧
      (Collection.archiveDefaults st fl).meta.archive_field = some fl) := by
  constructor
  · cases op with
    | declare c =>
        intro f hf
        have h1 := applyFieldCall_fields st c
        have h2 := applyFieldCall_name st c
        simp only [applyOp] at hf ⊢
        rw [h2]
        rw [h1] at hf
        rcases List.mem_append.mp hf with hl | hr
        · exact h f hl
        · rw [List.mem_singleton.mp hr]
          exact madeField_collection st.name c
    | hidden v => exact h
    | singleton v => exact h
    | sort f => exact h
    | archive f a u fl => exact h
    | accountability v => exact h
    | translation l t s p => exact h
    | relation f r => exact h
  · intro fl _
    exact ⟨rfl, rfl⟩

/-- Witness for claim C9 at a concrete input: a fresh collection is
well formed, stays well formed after `sort` names a field that does not
exist, and that `sort` call still records the name. -/
theorem operations_total_no_validation_witness :
    WellFormed (applyOp (Collection.new "posts") (Op.sort "missing")) ∧
    (Collection.sort (Collection.new "posts") "missing").meta.sort_field
        = some "missing" := by
  have h := operations_total_no_validation (Collection.new "posts")
    (Op.sort "missing")
    (by intro f hf; simp [Collection.new, Collection.mkC] at hf)
  exact ⟨h.1, (h.2 "missing" rfl).1⟩

/-- Claim C10: a collection constructed with only a builder and a name
defaults its schema to the empty object, its meta to the empty object
and its fields to the empty sequence, so rendering it yields exactly
the name with empty schema, empty meta and no fields. -/
theorem constructor_defaults_render (b : List Relation) (nm : String) :
    Collection.render (Collection.mkC b nm none none none)
      = { collection := nm, schema := {}, meta := {}, fields := [] } := rfl

end Directus
